import Mathlib

/-!
Verification of the webhook listener (src/webhook_listener.py).

The development shallowly embeds the Python module: byte strings are
lists of naturals below 256, Python text strings are Lean strings,
HMAC-SHA256 is implemented concretely (FIPS 180-4 / RFC 2104), and the
Flask request handler webhook is a pure function of the request data
plus two environment oracles: the outcome of request.get_json (the
JSON library is an external collaborator) and the behaviour of the
filesystem during write_deploy_instruction.

Modelling notes, matched line by line against the source:
- hmac.compare_digest on two Python str values raises TypeError unless
  both are pure ASCII; this is modelled by compareDigest returning an
  Except value.
- abort(401) raises a werkzeug HTTPException, which is a subclass of
  Exception; the except Exception handler wrapping the whole view
  function therefore catches it and the endpoint answers 500 with the
  generic internal-error body. The model reproduces this.
- The f-string log at line 134 evaluates payload_body.decode, which
  raises UnicodeDecodeError for bodies that are not valid UTF-8; the
  outer handler turns that into a 500. The model checks isValidUtf8
  first for this reason.
- Python str.replace replaces every occurrence of the pattern, not
  only a leading prefix; replaceAux mirrors that scan.
-/

set_option maxRecDepth 1000000

set_option maxHeartbeats 2000000

/-! SHA-256 over byte lists, per FIPS 180-4. Words are naturals taken
modulo 2 to the 32. -/

def rotr32 (n x : Nat) : Nat := ((x >>> n) ||| (x <<< (32 - n))) % 4294967296

def sha256K : List Nat :=
  [1116352408, 1899447441, 3049323471, 3921009573, 961987163, 1508970993,
   2453635748, 2870763221, 3624381080, 310598401, 607225278, 1426881987,
   1925078388, 2162078206, 2614888103, 3248222580, 3835390401, 4022224774,
   264347078, 604807628, 770255983, 1249150122, 1555081692, 1996064986,
   2554220882, 2821834349, 2952996808, 3210313671, 3336571891, 3584528711,
   113926993, 338241895, 666307205, 773529912, 1294757372, 1396182291,
   1695183700, 1986661051, 2177026350, 2456956037, 2730485921, 2820302411,
   3259730800, 3345764771, 3516065817, 3600352804, 4094571909, 275423344,
   430227734, 506948616, 659060556, 883997877, 958139571, 1322822218,
   1537002063, 1747873779, 1955562222, 2024104815, 2227730452, 2361852424,
   2428436474, 2756734187, 3204031479, 3329325298]

def sha256H0 : List Nat :=
  [1779033703, 3144134277, 1013904242, 2773480762,
   1359893119, 2600822924, 528734635, 1541459225]

def sha256Rounds : List (Nat × Nat) → Nat → Nat → Nat → Nat → Nat → Nat → Nat → Nat → List Nat
  | [], a, b, c, d, e, f, g, hh => [a, b, c, d, e, f, g, hh]
  | (k, w) :: rest, a, b, c, d, e, f, g, hh =>
    let s1 := rotr32 6 e ^^^ rotr32 11 e ^^^ rotr32 25 e
    let ch := (e &&& f) ^^^ ((e ^^^ 0xFFFFFFFF) &&& g)
    let t1 := (hh + s1 + ch + k + w) % 4294967296
    let s0 := rotr32 2 a ^^^ rotr32 13 a ^^^ rotr32 22 a
    let mj := (a &&& b) ^^^ (a &&& c) ^^^ (b &&& c)
    let t2 := (s0 + mj) % 4294967296
    sha256Rounds rest ((t1 + t2) % 4294967296) a b c ((d + t1) % 4294967296) e f g

def scheduleAux : Nat → List Nat → List Nat
  | 0, w => w
  | n + 1, w =>
    let len := w.length
    let x15 := w.getD (len - 15) 0
    let x2 := w.getD (len - 2) 0
    let x16 := w.getD (len - 16) 0
    let x7 := w.getD (len - 7) 0
    let s0 := rotr32 7 x15 ^^^ rotr32 18 x15 ^^^ (x15 >>> 3)
    let s1 := rotr32 17 x2 ^^^ rotr32 19 x2 ^^^ (x2 >>> 10)
    scheduleAux n (w ++ [(x16 + s0 + x7 + s1) % 4294967296])

def sha256Compress (hs : List Nat) (block : List Nat) : List Nat :=
  let w := scheduleAux 48 block
  let kw := sha256K.zip w
  let out := sha256Rounds kw (hs.getD 0 0) (hs.getD 1 0) (hs.getD 2 0) (hs.getD 3 0)
    (hs.getD 4 0) (hs.getD 5 0) (hs.getD 6 0) (hs.getD 7 0)
  (hs.zip out).map (fun p => (p.1 + p.2) % 4294967296)

def sha256Blocks : List Nat → List Nat → List Nat
  | hs, w0 :: w1 :: w2 :: w3 :: w4 :: w5 :: w6 :: w7 :: w8 :: w9 :: w10 :: w11 :: w12 :: w13 :: w14 :: w15 :: rest =>
      sha256Blocks (sha256Compress hs [w0, w1, w2, w3, w4, w5, w6, w7, w8, w9, w10, w11, w12, w13, w14, w15]) rest
  | hs, _ => hs

def beBytes (k n : Nat) : List Nat := (List.range k).map (fun i => (n >>> ((k - 1 - i) * 8)) % 256)

def padMessage (msg : List Nat) : List Nat :=
  msg ++ [0x80] ++ List.replicate ((119 - msg.length % 64) % 64) 0 ++ beBytes 8 (msg.length * 8)

def toWords : List Nat → List Nat
  | a :: b :: c :: d :: rest => (((a * 256 + b) * 256 + c) * 256 + d) :: toWords rest
  | _ => []

def sha256 (msg : List Nat) : List Nat :=
  (sha256Blocks sha256H0 (toWords (padMessage msg))).foldr (fun w acc => beBytes 4 w ++ acc) []

/-- HMAC-SHA256 per RFC 2104, block size 64 bytes. -/
def hmacSha256 (key msg : List Nat) : List Nat :=
  let k1 := if key.length > 64 then sha256 key else key
  let k2 := k1 ++ List.replicate (64 - k1.length) 0
  let ipad := k2.map (fun b => b ^^^ 0x36)
  let opad := k2.map (fun b => b ^^^ 0x5c)
  sha256 (opad ++ sha256 (ipad ++ msg))

def hexChar (n : Nat) : Char := "0123456789abcdef".data.getD n '0'

def bytesToHexList (bs : List Nat) : List Char :=
  bs.foldr (fun b acc => hexChar (b / 16 % 16) :: hexChar (b % 16) :: acc) []

/-- Lowercase hexadecimal rendering of the HMAC, as produced by
mac.hexdigest() at line 53 of the source. -/
def hmacSha256Hex (key msg : List Nat) : String := ⟨bytesToHexList (hmacSha256 key msg)⟩

/-! Python string helpers used by the source. -/

/-- Models signature_header.split('=', 1) at line 42: split at the first
occurrence of '=', returning none when no '=' is present, in which case
the Python call raises ValueError. -/
def splitFirstEq : List Char → Option (List Char × List Char)
  | [] => none
  | c :: rest =>
    if c = '=' then some ([], rest)
    else
      match splitFirstEq rest with
      | none => none
      | some (a, b) => some (c :: a, b)

def beginsWith : List Char → List Char → Bool
  | [], _ => true
  | _ :: _, [] => false
  | p :: pt, c :: ct => p == c && beginsWith pt ct

def occursIn (pat : List Char) : List Char → Bool
  | [] => pat.isEmpty
  | c :: rest => beginsWith pat (c :: rest) || occursIn pat rest

/-- Fuel-driven scan behind pyReplace. The fuel starts at the length of
the subject string, which is enough to finish the scan, since every step
consumes at least one character. -/
def replaceAux (pat rep : List Char) : Nat → List Char → List Char
  | _, [] => []
  | 0, s => s
  | fuel + 1, c :: rest =>
    if beginsWith pat (c :: rest) then
      rep ++ replaceAux pat rep fuel (List.drop (pat.length - 1) rest)
    else c :: replaceAux pat rep fuel rest

/-- Models Python str.replace(pat, rep) for a non-empty pattern: every
non-overlapping occurrence, scanning left to right, is replaced. -/
def pyReplace (s pat rep : String) : String :=
  ⟨replaceAux pat.data rep.data s.data.length s.data⟩

/-- Branch derivation at line 81 of the source:
payload.get('ref', '').replace('refs/heads/', ''). -/
def branchOfRef (ref : String) : String := pyReplace ref "refs/heads/" ""

def asciiStr (s : String) : Bool := s.data.all (fun c => decide (c.toNat < 128))

/-! UTF-8 validation, modelling payload_body.decode('utf-8') at line
134 of the source: the decode raises UnicodeDecodeError exactly when
the byte list is not well-formed UTF-8 (overlong forms, surrogates and
out-of-range sequences rejected). -/

def isCont (b : Nat) : Bool := 128 ≤ b && b ≤ 191

def isValidUtf8 : List Nat → Bool
  | [] => true
  | b :: rest =>
    if b ≤ 0x7F then isValidUtf8 rest
    else if 0xC2 ≤ b && b ≤ 0xDF then
      match rest with
      | b2 :: r => isCont b2 && isValidUtf8 r
      | _ => false
    else if b = 0xE0 then
      match rest with
      | b2 :: b3 :: r => (0xA0 ≤ b2 && b2 ≤ 0xBF) && isCont b3 && isValidUtf8 r
      | _ => false
    else if b = 0xED then
      match rest with
      | b2 :: b3 :: r => (0x80 ≤ b2 && b2 ≤ 0x9F) && isCont b3 && isValidUtf8 r
      | _ => false
    else if 0xE1 ≤ b && b ≤ 0xEF then
      match rest with
      | b2 :: b3 :: r => isCont b2 && isCont b3 && isValidUtf8 r
      | _ => false
    else if b = 0xF0 then
      match rest with
      | b2 :: b3 :: b4 :: r => (0x90 ≤ b2 && b2 ≤ 0xBF) && isCont b3 && isCont b4 && isValidUtf8 r
      | _ => false
    else if 0xF1 ≤ b && b ≤ 0xF3 then
      match rest with
      | b2 :: b3 :: b4 :: r => isCont b2 && isCont b3 && isCont b4 && isValidUtf8 r
      | _ => false
    else if b = 0xF4 then
      match rest with
      | b2 :: b3 :: b4 :: r => (0x80 ≤ b2 && b2 ≤ 0x8F) && isCont b3 && isCont b4 && isValidUtf8 r
      | _ => false
    else false

/-! The signature verifier, verify_webhook_signature (lines 31-60). -/

inductive VerifyErr
  /-- ValueError raised at line 35 when WEBHOOK_SECRET is unset or empty. -/
  | configError
  /-- TypeError raised by hmac.compare_digest when one of the two str
  arguments contains a non-ASCII character. -/
  | typeError
deriving DecidableEq

/-- One structured entry of the app.logger output produced during a
signature check; each constructor carries exactly the data interpolated
into the corresponding f-string of the source. -/
inductive LogMsg
  | secretNotConfigured
  | noSignatureHeader
  | invalidFormat (header : String)
  | invalidAlgo (alg : String)
  | receivedSig (s : String)
  | expectedSig (s : String)
  | secretUsed (key : List Nat)
  | payloadLen (n : Nat)
deriving DecidableEq

structure VerifyResult where
  result : Except VerifyErr Bool
  logs : List LogMsg

/-- Models hmac.compare_digest(a, b) for str arguments: functional
result is equality; both strings must be ASCII, otherwise TypeError. -/
def compareDigest (a b : String) : Except VerifyErr Bool :=
  if asciiStr a && asciiStr b then .ok (a == b) else .error .typeError

/-- Shallow embedding of verify_webhook_signature (lines 31-60).
The secret is the UTF-8 byte encoding of the WEBHOOK_SECRET environment
variable, none when unset; Python treats both None and the empty string
as falsy at line 33. -/
def verify_webhook_signature (secret : Option (List Nat)) (payloadBody : List Nat)
    (signatureHeader : Option String) : VerifyResult :=
  match secret with
  | none => ⟨.error .configError, [.secretNotConfigured]⟩
  | some key =>
    if key = [] then ⟨.error .configError, [.secretNotConfigured]⟩
    else
      match signatureHeader with
      | none => ⟨.ok false, [.noSignatureHeader]⟩
      | some h =>
        if h = "" then ⟨.ok false, [.noSignatureHeader]⟩
        else
          match splitFirstEq h.data with
          | none => ⟨.ok false, [.invalidFormat h]⟩
          | some (shaName, sig) =>
            if shaName ≠ "sha256".data then ⟨.ok false, [.invalidAlgo ⟨shaName⟩]⟩
            else
              ⟨compareDigest (hmacSha256Hex key payloadBody) ⟨sig⟩,
               [.receivedSig ⟨sig⟩, .expectedSig (hmacSha256Hex key payloadBody),
                .secretUsed key, .payloadLen payloadBody.length]⟩

/-! JSON payloads and write_deploy_instruction (lines 62-122). -/

inductive Json
  | null
  | bool (b : Bool)
  | num (n : Int)
  | str (s : String)
  | arr (elems : List Json)
  | obj (entries : List (String × Json))

/-- Python dict.get on an object decoded from JSON; with duplicate keys
the later entry wins, as in dict construction. -/
def dictGet (entries : List (String × Json)) (k : String) : Option Json :=
  entries.foldl (fun acc e => if e.1 = k then some e.2 else acc) none

/-- Models payload.get(key, default-dict).get('name') as used at lines
80 and 83: the default empty dict yields None; a present non-dict value
raises AttributeError, modelled as an error. -/
def getNameOf : Option Json → Except Unit (Option Json)
  | none => .ok none
  | some (.obj es) => .ok (dictGet es "name")
  | some _ => .error ()

/-- Python None and absent optional values both serialise as JSON null. -/
def optToJson : Option Json → Json
  | none => .null
  | some v => v

/-- Models payload.get('ref', '').replace('refs/heads/', '') at line 81;
a present non-string ref raises AttributeError at the .replace call. -/
def refBranch (entries : List (String × Json)) : Except Unit String :=
  match dictGet entries "ref" with
  | none => .ok (branchOfRef "")
  | some (.str s) => .ok (branchOfRef s)
  | some _ => .error ()

/-- The deploy_data dict literal of lines 78-85, as an ordered key-value
list; an error stands for an AttributeError raised while a field
expression is evaluated (caught by the except at line 117). -/
def buildDeployData (entries : List (String × Json)) (now : String) :
    Except Unit (List (String × Json)) :=
  match getNameOf (dictGet entries "repository") with
  | .error _ => .error ()
  | .ok repoName =>
    match refBranch entries with
    | .error _ => .error ()
    | .ok branch =>
      match getNameOf (dictGet entries "pusher") with
      | .error _ => .error ()
      | .ok authorName =>
        .ok [("timestamp", .str now),
             ("repository", optToJson repoName),
             ("branch", .str branch),
             ("commit", optToJson (dictGet entries "after")),
             ("author", optToJson authorName),
             ("status", .str "pending")]

/-- Oracle for the filesystem interaction of write_deploy_instruction:
ok means the write succeeds and reads back identical; raises means some
step inside the try block raises; missingAfterWrite means the file is
absent at the check of line 104; corruptReadBack means the re-read JSON
differs from the intended data (line 108). -/
inductive FsOutcome
  | ok
  | raises
  | missingAfterWrite
  | corruptReadBack
deriving DecidableEq

/-- Shallow embedding of write_deploy_instruction (lines 62-122): builds
the deployment record and reports success as a Bool, with every failure
path (exception, missing file, mismatched read-back) returning false.
The read-only inspection of the previous file contents (lines 66-75)
has no effect on the result and is not modelled. -/
def write_deploy_instruction (payload : Json) (now : String) (fs : FsOutcome) : Bool :=
  match payload with
  | .obj entries =>
    match buildDeployData entries now with
    | .error _ => false
    | .ok _ =>
      match fs with
      | .ok => true
      | .raises => false
      | .missingAfterWrite => false
      | .corruptReadBack => false
  | _ => false

/-! The POST /webhook view function (lines 124-182). -/

inductive RespBody
  | text (s : String)
  | statusJson (status message : String)
deriving DecidableEq

structure HttpResult where
  code : Nat
  body : RespBody
deriving DecidableEq

/-- Which externally relevant actions the handler performed: whether
request.get_json was reached and whether write_deploy_instruction was
invoked. -/
structure Effects where
  jsonParsed : Bool
  deployCalled : Bool
deriving DecidableEq

def internalError : HttpResult × Effects :=
  (⟨500, .statusJson "error" "Internal server error"⟩, ⟨false, false⟩)

/-- Shallow embedding of the webhook view function (lines 124-182).
getJson is the outcome of request.get_json(): some payload when the
body parses, none when the call raises (malformed JSON or unsupported
content type), in which case the except at line 148 answers 400.
Control-flow notes taken from the source:
- line 134 logs payload_body.decode('utf-8'); a body that is not valid
  UTF-8 raises there, reaching the outer except, hence 500;
- a ValueError or TypeError escaping verify_webhook_signature reaches
  the outer except, hence 500;
- abort(401) raises an HTTPException, a subclass of Exception, which
  the outer except at line 176 catches as well, hence the invalid
  signature path also answers 500 with the generic error body;
- in the push path, line 159 evaluates
  payload.get('repository', dict()).get('name') before calling
  write_deploy_instruction; on a non-dict payload or non-dict
  repository field this raises AttributeError, hence 500 with no
  deployment call. -/
def webhook (secret : Option (List Nat)) (payloadBody : List Nat) (sigHeader : Option String)
    (eventType : Option String) (getJson : Option Json) (fs : FsOutcome) (now : String) :
    HttpResult × Effects :=
  if isValidUtf8 payloadBody = false then internalError
  else
    match (verify_webhook_signature secret payloadBody sigHeader).result with
    | .error _ => internalError
    | .ok false => internalError
    | .ok true =>
      match getJson with
      | none => (⟨400, .text "Invalid JSON payload"⟩, ⟨true, false⟩)
      | some payload =>
        if eventType ≠ some "push" then (⟨200, .text "OK"⟩, ⟨true, false⟩)
        else
          match payload with
          | .obj entries =>
            match getNameOf (dictGet entries "repository") with
            | .error _ => (⟨500, .statusJson "error" "Internal server error"⟩, ⟨true, false⟩)
            | .ok _ =>
              if write_deploy_instruction (.obj entries) now fs then
                (⟨200, .statusJson "success" "Deployment instructions written successfully"⟩,
                 ⟨true, true⟩)
              else
                (⟨500, .statusJson "error" "Failed to write deployment instructions"⟩,
                 ⟨true, true⟩)
          | _ => (⟨500, .statusJson "error" "Internal server error"⟩, ⟨true, false⟩)

/-! Helper lemmas. -/

theorem getD_all {l : List Char} {p : Char → Bool} {n : Nat} {d : Char}
    (hl : l.all p = true) (hd : p d = true) : p (l.getD n d) = true := by
  rw [List.getD_eq_getElem?_getD]
  cases h : l[n]? with
  | none => simpa [h] using hd
  | some a =>
    have ha : a ∈ l := List.getElem?_mem h
    simpa [h] using List.all_eq_true.mp hl a ha

theorem hexChar_ascii (n : Nat) : decide ((hexChar n).toNat < 128) = true := by
  exact getD_all (l := "0123456789abcdef".data) (p := fun c => decide (c.toNat < 128))
    (n := n) (d := '0') (by decide) (by decide)

theorem hexlist_ascii (bs : List Nat) :
    (bytesToHexList bs).all (fun c => decide (c.toNat < 128)) = true := by
  induction bs with
  | nil => rfl
  | cons b t ih =>
    simp only [bytesToHexList, List.foldr_cons, List.all_cons]
    rw [hexChar_ascii, hexChar_ascii]
    simpa [bytesToHexList] using ih

theorem ascii_hmac (k body : List Nat) : asciiStr (hmacSha256Hex k body) = true :=
  hexlist_ascii (hmacSha256 k body)

theorem all_set {l : List Char} {p : Char → Bool} {i : Nat} {c : Char}
    (hl : l.all p = true) (hc : p c = true) : (l.set i c).all p = true := by
  induction l generalizing i with
  | nil => simp
  | cons a t ih =>
    rw [List.all_cons, Bool.and_eq_true] at hl
    cases i with
    | zero =>
      simp only [List.set, List.all_cons, Bool.and_eq_true]
      exact ⟨hc, hl.2⟩
    | succ j =>
      simp only [List.set, List.all_cons, Bool.and_eq_true]
      exact ⟨hl.1, ih hl.2⟩

theorem set_ne : ∀ {l : List Char} {i : Nat} {c : Char} (h : i < l.length),
    c ≠ l.get ⟨i, h⟩ → l.set i c ≠ l := by
  intro l
  induction l with
  | nil => intro i c h; simp at h
  | cons a t ih =>
    intro i c h hc
    cases i with
    | zero =>
      intro he
      simp only [List.set] at he
      injection he with h1 _
      exact hc h1
    | succ j =>
      intro he
      simp only [List.set] at he
      injection he with _ h2
      have hj : j < t.length := Nat.lt_of_succ_lt_succ h
      exact ih hj hc h2

theorem split_none {l : List Char} (h : '=' ∉ l) : splitFirstEq l = none := by
  induction l with
  | nil => rfl
  | cons c t ih =>
    have hc : ¬(c = '=') := by intro hh; exact h (by simp [hh])
    have ht : '=' ∉ t := by intro hh; exact h (List.mem_cons_of_mem c hh)
    simp [splitFirstEq, hc, ih ht]

theorem split_pre {pre x : List Char} (h : '=' ∉ pre) :
    splitFirstEq (pre ++ '=' :: x) = some (pre, x) := by
  induction pre with
  | nil => simp [splitFirstEq]
  | cons c t ih =>
    have hc : ¬(c = '=') := by intro hh; exact h (by simp [hh])
    have ht : '=' ∉ t := by intro hh; exact h (List.mem_cons_of_mem c hh)
    simp [splitFirstEq, hc, ih ht]

theorem split_sha_header (s : List Char) :
    splitFirstEq ("sha256=".data ++ s) = some ("sha256".data, s) := by
  rw [show ("sha256=".data : List Char) = "sha256".data ++ ['='] from by decide,
    List.append_assoc, List.singleton_append]
  exact split_pre (by decide)

theorem compareDigest_ne {a b : String} (ha : asciiStr a = true) (hb : asciiStr b = true)
    (h : a ≠ b) : compareDigest a b = .ok false := by
  unfold compareDigest
  rw [ha, hb]
  simpa using beq_eq_false_iff_ne.mpr h

theorem compareDigest_self {a : String} (ha : asciiStr a = true) :
    compareDigest a a = .ok true := by
  unfold compareDigest
  rw [ha]
  simp

/-- Definitional unfolding of the verifier at a present secret and a
present header, with the remaining control flow kept as written. -/
theorem verify_cons_some (key : List Nat) (body : List Nat) (h : String) :
    verify_webhook_signature (some key) body (some h) =
      if key = [] then ⟨.error .configError, [.secretNotConfigured]⟩
      else if h = "" then ⟨.ok false, [.noSignatureHeader]⟩
      else
        match splitFirstEq h.data with
        | none => ⟨.ok false, [.invalidFormat h]⟩
        | some (shaName, sig) =>
          if shaName ≠ "sha256".data then ⟨.ok false, [.invalidAlgo ⟨shaName⟩]⟩
          else
            ⟨compareDigest (hmacSha256Hex key body) ⟨sig⟩,
             [.receivedSig ⟨sig⟩, .expectedSig (hmacSha256Hex key body),
              .secretUsed key, .payloadLen body.length]⟩ := rfl

/-- Central unfolding: with a non-empty secret and a header of the form
sha256=SIG, verification reduces to the constant-time comparison of the
expected hex digest with SIG, after emitting the four log entries. -/
theorem verify_sha_header (kh : Nat) (kt : List Nat) (body : List Nat) (sig : List Char) :
    verify_webhook_signature (some (kh :: kt)) body (some ⟨"sha256=".data ++ sig⟩) =
      ⟨compareDigest (hmacSha256Hex (kh :: kt) body) ⟨sig⟩,
       [.receivedSig ⟨sig⟩, .expectedSig (hmacSha256Hex (kh :: kt) body),
        .secretUsed (kh :: kt), .payloadLen body.length]⟩ := by
  have hne : (⟨"sha256=".data ++ sig⟩ : String) ≠ "" := by
    intro he
    have h2 : ("sha256=".data ++ sig) = ([] : List Char) := congrArg String.data he
    simp at h2
  rw [verify_cons_some]
  rw [if_neg (by simp : ¬(kh :: kt = []))]
  rw [if_neg hne]
  rw [show (⟨"sha256=".data ++ sig⟩ : String).data = "sha256=".data ++ sig from rfl]
  rw [split_sha_header]
  simp

/-- Projection form of verify_sha_header, used to keep the comparison
opaque in the claim proofs. -/
theorem verify_sha_header_result (kh : Nat) (kt : List Nat) (body : List Nat)
    (sig : List Char) :
    (verify_webhook_signature (some (kh :: kt)) body
        (some ⟨"sha256=".data ++ sig⟩)).result =
      compareDigest (hmacSha256Hex (kh :: kt) body) ⟨sig⟩ := by
  rw [verify_sha_header]

theorem beginsWith_append : ∀ (xs ys : List Char), beginsWith xs (xs ++ ys) = true := by
  intro xs ys
  induction xs with
  | nil => rfl
  | cons p pt ih => simp [beginsWith, ih]

theorem replaceAux_no_occur (pat rep : List Char) :
    ∀ (s : List Char) (fuel : Nat), occursIn pat s = false → replaceAux pat rep fuel s = s := by
  intro s
  induction s with
  | nil => intro fuel _; cases fuel <;> rfl
  | cons c t ih =>
    intro fuel h
    rw [occursIn, Bool.or_eq_false_iff] at h
    cases fuel with
    | zero => rfl
    | succ f =>
      rw [replaceAux, if_neg (by rw [h.1]; exact Bool.false_ne_true)]
      rw [ih f h.2]

theorem replaceAux_strip (p : Char) (pt rest : List Char) (f : Nat)
    (h : occursIn (p :: pt) rest = false) :
    replaceAux (p :: pt) [] (f + 1) (p :: (pt ++ rest)) = rest := by
  rw [replaceAux]
  rw [if_pos (show beginsWith (p :: pt) (p :: (pt ++ rest)) = true from
    beginsWith_append (p :: pt) rest)]
  rw [show (p :: pt).length - 1 = pt.length from by simp]
  rw [List.drop_left]
  rw [List.nil_append]
  exact replaceAux_no_occur _ _ _ _ h

theorem branchOfRef_no_occur (ref : String)
    (h : occursIn "refs/heads/".data ref.data = false) : branchOfRef ref = ref := by
  unfold branchOfRef pyReplace
  rw [replaceAux_no_occur _ _ _ _ h]

theorem branchOfRef_strip (rest : String)
    (h : occursIn "refs/heads/".data rest.data = false) :
    branchOfRef ⟨"refs/heads/".data ++ rest.data⟩ = rest := by
  unfold branchOfRef pyReplace
  rw [show (⟨"refs/heads/".data ++ rest.data⟩ : String).data =
    "refs/heads/".data ++ rest.data from rfl]
  rw [show ("".data : List Char) = [] from rfl]
  rw [show ("refs/heads/".data ++ rest.data).length = (10 + rest.data.length) + 1 from by
    rw [List.length_append, show ("refs/heads/".data).length = 11 from by decide]; omega]
  rw [show ("refs/heads/".data : List Char) = 'r' :: "efs/heads/".data from by decide]
  rw [show ('r' :: "efs/heads/".data) ++ rest.data = 'r' :: ("efs/heads/".data ++ rest.data)
    from rfl]
  rw [replaceAux_strip 'r' "efs/heads/".data rest.data (10 + rest.data.length)
    (by rw [show ('r' :: "efs/heads/".data : List Char) = "refs/heads/".data from by decide]
        exact h)]

theorem verify_cons_not_config (kh : Nat) (kt : List Nat) (body : List Nat)
    (sh : Option String) :
    (verify_webhook_signature (some (kh :: kt)) body sh).result ≠ .error .configError := by
  cases sh with
  | none => simp [verify_webhook_signature]
  | some h =>
    rw [verify_cons_some]
    rw [if_neg (by simp : ¬(kh :: kt = []))]
    by_cases h0 : h = ""
    · simp [h0]
    · rw [if_neg h0]
      split
      · simp
      · split
        · simp
        · simp only [compareDigest]
          split <;> simp

/-! Claim theorems. -/

/-- C1 counterexample: the claim says flipping any single character of
the hex digest in the header makes verification return false, but
flipping the first digest character to the non-ASCII character at code
point 233 makes hmac.compare_digest raise TypeError instead of
returning false: the verifier does not return at all. -/
theorem c1_counterexample :
    128 ≤ 'é'.toNat ∧
    'é' ≠ (hmacSha256Hex [115] []).data.getD 0 'x' ∧
    (verify_webhook_signature (some [115]) []
        (some ⟨"sha256=".data ++ List.set (hmacSha256Hex [115] []).data 0 'é'⟩)).result =
      .error .typeError := by
  refine ⟨by decide, by decide, ?_⟩
  rfl

/-- C1 (amended): for every non-empty secret and body, the exact header
sha256=HMAC-hex verifies true; flipping any digest character to a
different ASCII character yields false; and a request body whose HMAC
digest differs from the digest in the header yields false (flipping a
body byte changes the digest except in the event of an HMAC-SHA256
collision; a non-ASCII replacement character instead raises TypeError,
see the counterexample). -/
theorem c1_verify_signature (k body : List Nat) (hk : k ≠ []) :
    (verify_webhook_signature (some k) body
        (some ("sha256=" ++ hmacSha256Hex k body))).result = .ok true ∧
    (∀ (i : Nat) (c : Char) (hi : i < (hmacSha256Hex k body).data.length),
      c.toNat < 128 → c ≠ (hmacSha256Hex k body).data.get ⟨i, hi⟩ →
      (verify_webhook_signature (some k) body
        (some ⟨"sha256=".data ++ List.set (hmacSha256Hex k body).data i c⟩)).result =
        .ok false) ∧
    (∀ body2 : List Nat, hmacSha256Hex k body2 ≠ hmacSha256Hex k body →
      (verify_webhook_signature (some k) body2
        (some ("sha256=" ++ hmacSha256Hex k body))).result = .ok false) := by
  cases k with
  | nil => exact absurd rfl hk
  | cons kh kt =>
    have e1 : ("sha256=" ++ hmacSha256Hex (kh :: kt) body) =
        (⟨"sha256=".data ++ (hmacSha256Hex (kh :: kt) body).data⟩ : String) :=
      String.ext (by rw [String.data_append])
    refine ⟨?_, ?_, ?_⟩
    · rw [e1, verify_sha_header_result]
      exact compareDigest_self (a := hmacSha256Hex (kh :: kt) body) (ascii_hmac _ _)
    · intro i c hi hca hcn
      rw [verify_sha_header_result]
      refine compareDigest_ne (ascii_hmac _ _) ?_ ?_
      · exact all_set (hexlist_ascii (hmacSha256 (kh :: kt) body)) (decide_eq_true hca)
      · intro he
        have hdata : (hmacSha256Hex (kh :: kt) body).data =
            List.set (hmacSha256Hex (kh :: kt) body).data i c := congrArg String.data he
        exact set_ne hi hcn hdata.symm
    · intro body2 hne
      rw [e1, verify_sha_header_result]
      exact compareDigest_ne (ascii_hmac (kh :: kt) body2)
        (ascii_hmac (kh :: kt) body)
        (fun he => hne (String.ext (congrArg String.data he)))

/-- C1 witness: the three amended clauses evaluated at the secret byte
115, body 0x7b 0x7d, flip position 0 with replacement character z, and
the one-byte bodies 0 and 1 whose digests differ. -/
theorem c1_witness :
    (verify_webhook_signature (some [115]) [123, 125]
        (some ("sha256=" ++ hmacSha256Hex [115] [123, 125]))).result = .ok true ∧
    (verify_webhook_signature (some [115]) [123, 125]
        (some ⟨"sha256=".data ++
          List.set (hmacSha256Hex [115] [123, 125]).data 0 'z'⟩)).result = .ok false ∧
    (verify_webhook_signature (some [115]) [1]
        (some ("sha256=" ++ hmacSha256Hex [115] [0]))).result = .ok false :=
  ⟨(c1_verify_signature [115] [123, 125] (by decide)).1,
   (c1_verify_signature [115] [123, 125] (by decide)).2.1 0 'z' (by decide) (by decide)
     (by decide),
   (c1_verify_signature [115] [0] (by decide)).2.2 [1] (by decide)⟩

/-- C2: the code violates the claim. On a failed authentication attempt
(wrong digest, well-formed header, configured secret) the log output of
verify_webhook_signature contains both the shared secret (line 57 of
the source) and the expected digest (line 56), while the claim says
neither is ever logged. -/
theorem c2_secret_and_digest_logged :
    (verify_webhook_signature (some [115]) [] (some "sha256=00")).result = .ok false ∧
    LogMsg.secretUsed [115] ∈
      (verify_webhook_signature (some [115]) [] (some "sha256=00")).logs ∧
    LogMsg.expectedSig (hmacSha256Hex [115] []) ∈
      (verify_webhook_signature (some [115]) [] (some "sha256=00")).logs := by
  refine ⟨rfl, ?_, ?_⟩
  · decide
  · decide

/-- C3: the code violates the claim. For a request whose signature
fails verification (secret byte 115, body the two bytes of an empty
JSON object, digest 00), the endpoint answers 500 with the generic
internal-error body rather than 401: abort(401) raises an
HTTPException, a subclass of Exception, and the catch-all at line 176
of the source converts it to 500. The claim is right that neither JSON
parsing nor write_deploy_instruction is performed, which the effect
flags confirm. -/
theorem c3_invalid_signature_yields_500 :
    (verify_webhook_signature (some [115]) [123, 125] (some "sha256=00")).result =
      .ok false ∧
    webhook (some [115]) [123, 125] (some "sha256=00") (some "push") (some (Json.obj []))
        FsOutcome.ok "t" =
      (⟨500, .statusJson "error" "Internal server error"⟩, ⟨false, false⟩) :=
  ⟨rfl, rfl⟩

/-- C4: with a non-empty secret the verifier returns false, without
raising, for an absent header, for a header containing no equals sign,
and for a header naming an algorithm other than sha256; and it raises
the configuration ValueError exactly when the secret is unset or the
empty string. -/
theorem c4_verify_error_paths (k : List Nat) (body : List Nat) (hk : k ≠ []) :
    (verify_webhook_signature (some k) body none).result = .ok false ∧
    (∀ h : String, '=' ∉ h.data →
      (verify_webhook_signature (some k) body (some h)).result = .ok false) ∧
    (∀ (h : String) (alg sig : List Char), splitFirstEq h.data = some (alg, sig) →
      alg ≠ "sha256".data →
      (verify_webhook_signature (some k) body (some h)).result = .ok false) ∧
    (∀ (secret : Option (List Nat)) (body2 : List Nat) (sh : Option String),
      (verify_webhook_signature secret body2 sh).result = .error .configError ↔
        secret = none ∨ secret = some []) := by
  cases k with
  | nil => exact absurd rfl hk
  | cons kh kt =>
    refine ⟨by simp [verify_webhook_signature], ?_, ?_, ?_⟩
    · intro h hmem
      rw [verify_cons_some, if_neg (by simp : ¬(kh :: kt = []))]
      by_cases h0 : h = ""
      · simp [h0]
      · rw [if_neg h0, split_none hmem]
    · intro h alg sig hsp halg
      have h0 : h ≠ "" := by
        intro he
        subst he
        simp [splitFirstEq, show ("".data : List Char) = [] from rfl] at hsp
      rw [verify_cons_some, if_neg (by simp : ¬(kh :: kt = [])), if_neg h0, hsp]
      simp [halg]
    · intro secret body2 sh
      constructor
      · intro he
        cases secret with
        | none => exact Or.inl rfl
        | some key =>
          cases key with
          | nil => exact Or.inr rfl
          | cons kh2 kt2 => exact absurd he (verify_cons_not_config kh2 kt2 body2 sh)
      · intro hor
        rcases hor with h1 | h1 <;> subst h1 <;> rfl

/-- C4 witness: the error paths evaluated at the secret byte 115 and
the empty body, with the headers bogus (no equals sign) and sha1=00
(wrong algorithm), and the configuration side at an unset secret. -/
theorem c4_witness :
    (verify_webhook_signature (some [115]) [] none).result = .ok false ∧
    (verify_webhook_signature (some [115]) [] (some "bogus")).result = .ok false ∧
    (verify_webhook_signature (some [115]) [] (some "sha1=00")).result = .ok false ∧
    ((verify_webhook_signature none [] none).result = .error .configError ↔
      (none : Option (List Nat)) = none ∨ (none : Option (List Nat)) = some []) :=
  ⟨(c4_verify_error_paths [115] [] (by decide)).1,
   (c4_verify_error_paths [115] [] (by decide)).2.1 "bogus" (by decide),
   (c4_verify_error_paths [115] [] (by decide)).2.2.1 "sha1=00" "sha1".data
     ['0', '0'] (by decide) (by decide),
   (c4_verify_error_paths [115] [] (by decide)).2.2.2 none [] none⟩

/-- C5 counterexample: the claim says a ref starting with refs/heads/
yields the ref with that one leading prefix removed, so the ref
refs/heads/refs/heads/main should yield branch refs/heads/main; the
code uses str.replace, which removes every occurrence, yielding main. -/
theorem c5_counterexample :
    branchOfRef "refs/heads/refs/heads/main" = "main" ∧
    ("main" : String) ≠ "refs/heads/main" :=
  ⟨rfl, by decide⟩

/-- C5 (amended): the derived branch equals the ref with every
occurrence of the substring refs/heads/ removed. In particular, when
the ref does not contain refs/heads/ at all it is unchanged, and when
the ref is refs/heads/ followed by a remainder free of further
occurrences the result is exactly that remainder. -/
theorem c5_branch_replace_all (ref rest : String) :
    (occursIn "refs/heads/".data ref.data = false → branchOfRef ref = ref) ∧
    (occursIn "refs/heads/".data rest.data = false →
      branchOfRef ⟨"refs/heads/".data ++ rest.data⟩ = rest) :=
  ⟨fun h => branchOfRef_no_occur ref h, fun h => branchOfRef_strip rest h⟩

/-- C5 witness: the tag ref refs/tags/v1 is unchanged, and the branch
ref refs/heads/release yields release. -/
theorem c5_witness :
    branchOfRef "refs/tags/v1" = "refs/tags/v1" ∧
    branchOfRef ⟨"refs/heads/".data ++ "release".data⟩ = "release" :=
  ⟨(c5_branch_replace_all "refs/tags/v1" "release").1 (by decide),
   (c5_branch_replace_all "refs/tags/v1" "release").2 (by decide)⟩

/-- C7: every authenticated request (UTF-8 body, verification true)
whose event-type header differs from push and whose body parses as
JSON answers 200 with body OK, and write_deploy_instruction is not
invoked. -/
theorem c7_nonpush_event_ok (secret : Option (List Nat)) (body : List Nat)
    (sig : Option String) (et : Option String) (j : Json) (fs : FsOutcome) (now : String)
    (hu : isValidUtf8 body = true)
    (hv : (verify_webhook_signature secret body sig).result = .ok true)
    (he : et ≠ some "push") :
    webhook secret body sig et (some j) fs now = (⟨200, .text "OK"⟩, ⟨true, false⟩) := by
  unfold webhook
  rw [if_neg (by simp [hu])]
  rw [hv]
  simp [he]

/-- C7 witness: a correctly signed ping event with the empty JSON
object body answers 200 OK without any deployment action. -/
theorem c7_witness :
    webhook (some [115]) [123, 125]
        (some ("sha256=" ++ hmacSha256Hex [115] [123, 125])) (some "ping")
        (some (Json.obj [])) FsOutcome.ok "t" = (⟨200, .text "OK"⟩, ⟨true, false⟩) :=
  c7_nonpush_event_ok (some [115]) [123, 125]
    (some ("sha256=" ++ hmacSha256Hex [115] [123, 125])) (some "ping") (Json.obj [])
    FsOutcome.ok "t" (by decide) rfl (by decide)

/-- C8: for the payload of the claim, the deployment record built by
write_deploy_instruction carries exactly the six fields timestamp,
repository, branch, commit, author, status in that order, with
repository r, branch main, commit abc123, author u and status pending;
with a well-behaved filesystem the write is reported successful, and
the full handler run on an authenticated push answers 200. -/
theorem c8_deploy_record (now : String) :
    buildDeployData
      [("ref", Json.str "refs/heads/main"), ("after", Json.str "abc123"),
       ("repository", Json.obj [("name", Json.str "r")]),
       ("pusher", Json.obj [("name", Json.str "u")])] now =
      .ok [("timestamp", Json.str now), ("repository", Json.str "r"),
           ("branch", Json.str "main"), ("commit", Json.str "abc123"),
           ("author", Json.str "u"), ("status", Json.str "pending")] ∧
    write_deploy_instruction
      (Json.obj [("ref", Json.str "refs/heads/main"), ("after", Json.str "abc123"),
        ("repository", Json.obj [("name", Json.str "r")]),
        ("pusher", Json.obj [("name", Json.str "u")])]) now FsOutcome.ok = true ∧
    webhook (some [115]) [123, 125]
        (some ("sha256=" ++ hmacSha256Hex [115] [123, 125])) (some "push")
        (some (Json.obj [("ref", Json.str "refs/heads/main"), ("after", Json.str "abc123"),
          ("repository", Json.obj [("name", Json.str "r")]),
          ("pusher", Json.obj [("name", Json.str "u")])])) FsOutcome.ok now =
      (⟨200, .statusJson "success" "Deployment instructions written successfully"⟩,
       ⟨true, true⟩) :=
  ⟨rfl, rfl, rfl⟩

/-- C9: whenever an authenticated push request reaches the deployment
step and write_deploy_instruction reports failure, the endpoint
answers 500 with the error-status body naming the failed write; the
failure is not silently ignored. -/
theorem c9_write_failure_500 (secret : Option (List Nat)) (body : List Nat)
    (sig : Option String) (es : List (String × Json)) (fs : FsOutcome) (now : String)
    (r : Option Json)
    (hu : isValidUtf8 body = true)
    (hv : (verify_webhook_signature secret body sig).result = .ok true)
    (hr : getNameOf (dictGet es "repository") = .ok r)
    (hw : write_deploy_instruction (Json.obj es) now fs = false) :
    webhook secret body sig (some "push") (some (Json.obj es)) fs now =
      (⟨500, .statusJson "error" "Failed to write deployment instructions"⟩, ⟨true, true⟩) := by
  unfold webhook
  rw [if_neg (by simp [hu])]
  rw [hv]
  simp [hr, hw]

/-- C9 witness: a correctly signed push with the empty JSON object
body, on a filesystem whose write raises, answers 500 with the
error-status body. -/
theorem c9_witness :
    webhook (some [115]) [123, 125]
        (some ("sha256=" ++ hmacSha256Hex [115] [123, 125])) (some "push")
        (some (Json.obj [])) FsOutcome.raises "t" =
      (⟨500, .statusJson "error" "Failed to write deployment instructions"⟩, ⟨true, true⟩) :=
  c9_write_failure_500 (some [115]) [123, 125]
    (some ("sha256=" ++ hmacSha256Hex [115] [123, 125])) [] FsOutcome.raises "t" none
    (by decide) rfl rfl rfl

/-- C10 counterexample: the claim asserts 400 for every valid
signature, non-push event and body that is not valid JSON, but the
single byte 255 is not valid JSON and not valid UTF-8 either, so the
debug decode at line 134 raises before anything else and the endpoint
answers 500, not 400, even though the signature is valid. -/
theorem c10_counterexample :
    isValidUtf8 [255] = false ∧
    (verify_webhook_signature (some [115]) [255]
        (some ("sha256=" ++ hmacSha256Hex [115] [255]))).result = .ok true ∧
    webhook (some [115]) [255] (some ("sha256=" ++ hmacSha256Hex [115] [255]))
        (some "ping") none FsOutcome.ok "t" =
      (⟨500, .statusJson "error" "Internal server error"⟩, ⟨false, false⟩) ∧
    (500 : Nat) ≠ 400 :=
  ⟨rfl, rfl, rfl, by decide⟩

/-- C10 (amended): for every request with a valid signature whose body
decodes as UTF-8 but fails JSON parsing, the endpoint answers 400 with
body Invalid JSON payload, for every event-type header including
non-push ones, because the body is JSON-decoded before the event-type
header is examined. -/
theorem c10_invalid_json_400 (secret : Option (List Nat)) (body : List Nat)
    (sig : Option String) (et : Option String) (fs : FsOutcome) (now : String)
    (hu : isValidUtf8 body = true)
    (hv : (verify_webhook_signature secret body sig).result = .ok true) :
    webhook secret body sig et none fs now =
      (⟨400, .text "Invalid JSON payload"⟩, ⟨true, false⟩) := by
  unfold webhook
  rw [if_neg (by simp [hu])]
  rw [hv]

/-- C10 witness: a correctly signed ping request whose body is the
single byte of an opening brace, which request.get_json rejects,
answers 400. -/
theorem c10_witness :
    webhook (some [115]) [123] (some ("sha256=" ++ hmacSha256Hex [115] [123]))
        (some "ping") none FsOutcome.ok "t" =
      (⟨400, .text "Invalid JSON payload"⟩, ⟨true, false⟩) :=
  c10_invalid_json_400 (some [115]) [123]
    (some ("sha256=" ++ hmacSha256Hex [115] [123])) (some "ping") FsOutcome.ok "t"
    (by decide) rfl
